import Mathlib

/-!
Shallow embedding of `src/source/claire.js` (a Chrome extension background
script).  The script tracks, per tab, the last completed main-frame request,
decodes the proprietary `CF-RAILGUN` response header, and derives a page-action
icon variant from the detected features.

Modelling conventions:
* JS numbers appear here only as integer values; `Option Int` models a number
  that may be `NaN` (`none` = `NaN`).
* JS `undefined` for a possibly-missing string/object is `Option`.
* A JS `TypeError` escaping a function is modelled by an `Option`-valued result
  (`none` = the error branch was taken) or by an explicit `Effect.exn`.
* Handlers are pure state transformers on the registry together with a list of
  emitted `Effect`s (icon publications, page queries, console logs, responses).
-/

namespace Claire

/-! ## JS primitives -/

/-- Characters JS trims as whitespace (the common ASCII subset). -/
def isJsWs (c : Char) : Bool :=
  c = ' ' || c = '\t' || c = '\n' || c = '\r'

/-- `parseInt(s, 10)`: skip leading whitespace, optional sign, then the longest
prefix of decimal digits; `none` (`NaN`) when no digits are found. -/
def parseIntDec (s : String) : Option Int :=
  let cs := s.data.dropWhile isJsWs
  let sign : Int := match cs with
    | '-' :: _ => -1
    | _ => 1
  let cs := match cs with
    | '-' :: rest => rest
    | '+' :: rest => rest
    | _ => cs
  let digits := cs.takeWhile Char.isDigit
  if digits.isEmpty then none
  else some (sign * (digits.foldl (fun a c => a * 10 + (c.toNat - 48)) 0 : Nat))

/-- `parseInt` applied to a token that may be `undefined`
(`parseInt(undefined, 10)` is `NaN`). -/
def parseIntAt : Option String → Option Int
  | none => none
  | some s => parseIntDec s

/-- `ToNumber` on a string, modelled for integer-valued tokens: a
whitespace-only string coerces to `0`, an optionally-signed all-digit string to
the corresponding integer, and anything else (including non-integer numeric
literals, which this model does not cover) to `NaN` (`none`). -/
def toNumber (s : String) : Option Int :=
  let cs := (((s.data.dropWhile isJsWs).reverse.dropWhile isJsWs).reverse)
  if cs.isEmpty then some 0
  else
    let sign : Int := match cs with
      | '-' :: _ => -1
      | _ => 1
    let cs := match cs with
      | '-' :: rest => rest
      | '+' :: rest => rest
      | _ => cs
    if cs.isEmpty = false && cs.all Char.isDigit then
      some (sign * (cs.foldl (fun a c => a * 10 + (c.toNat - 48)) 0 : Nat))
    else none

/-- `ToNumber` of a value that may be `undefined` (`ToNumber(undefined) = NaN`). -/
def toNumberAt : Option String → Option Int
  | none => none
  | some s => toNumber s

/-- JS subtraction on numbers: any `NaN` operand yields `NaN`. -/
def jsSub : Option Int → Option Int → Option Int
  | some a, some b => some (a - b)
  | _, _ => none

/-- Rendering a JS number into a string (`NaN` prints as `"NaN"`). -/
def numToString : Option Int → String
  | none => "NaN"
  | some n => toString n

/-- String-coercion of a possibly-`undefined` string (string concatenation with
`undefined` renders it as `"undefined"`). -/
def strOrUndef : Option String → String
  | none => "undefined"
  | some s => s

/-- `a[i]` on a JS array: `undefined` out of bounds. -/
def jsIndex (l : List String) (i : Nat) : Option String :=
  l.get? i

/-- Helper for `String.prototype.split` with a one-character separator. -/
def splitChAux (sep : Char) : List Char → List Char → List (List Char)
  | [], acc => [acc.reverse]
  | c :: cs, acc =>
    if c = sep then acc.reverse :: splitChAux sep cs []
    else splitChAux sep cs (c :: acc)

/-- `s.split(sep)` for a one-character separator, as in the source call `split(" ")`. -/
def jsSplit (s : String) (sep : Char) : List String :=
  (splitChAux sep s.data []).map fun l => ⟨l⟩

/-- Does `pat` occur at the head of `s`? -/
def strStartsWith : List Char → List Char → Bool
  | [], _ => true
  | _ :: _, [] => false
  | p :: ps, c :: cs => p = c && strStartsWith ps cs

/-- Does `pat` occur anywhere in `s`? -/
def occursIn (pat : List Char) : List Char → Bool
  | [] => strStartsWith pat []
  | c :: cs => strStartsWith pat (c :: cs) || occursIn pat cs

/-- `s.indexOf(pat) !== -1`. -/
def containsSubstr (s pat : String) : Bool :=
  occursIn pat.data s.data

/-- `s.indexOf(c) !== -1` for a single character. -/
def hasChar (s : String) (c : Char) : Bool :=
  s.data.contains c

/-- `name.toUpperCase()` (ASCII). -/
def upName (s : String) : String :=
  ⟨s.data.map Char.toUpper⟩

/-- Truthiness of a possibly-`undefined` boolean (`undefined` is falsy). -/
def truthy : Option Bool → Bool
  | some b => b
  | none => false

/-- The 32-bit bit pattern of a JS number under `ToInt32` (`NaN` maps to 0);
bitwise `&` acts on this pattern. -/
def toUInt32bits : Option Int → Nat
  | none => 0
  | some n => (n % (2 ^ 32 : Int)).toNat

/-- Bitwise and via fuelled binary recursion (32 bits suffice after `ToInt32`). -/
def landAux : Nat → Nat → Nat → Nat
  | 0, _, _ => 0
  | fuel + 1, a, b => (a % 2) * (b % 2) + 2 * landAux fuel (a / 2) (b / 2)

/-- `a & b` on 32-bit patterns. -/
def land32 (a b : Nat) : Nat :=
  landAux 32 a b

/-- `(flagsBitset & flag.position) !== 0` as in the source (both operands go
through `ToInt32`; the test is on the resulting bit patterns). -/
def jsBitTest (bitset : Option Int) (position : Nat) : Bool :=
  land32 (toUInt32bits bitset) position ≠ 0

/-- The `railgunFlags` table from the source, in declaration (= enumeration)
order: bit position and message. -/
def railgunFlags : List (Nat × String) :=
  [ (0x01, "map.file used to change IP"),
    (0x02, "map.file default IP used"),
    (0x04, "Host name change"),
    (0x08, "Existing connection reused"),
    (0x10, "Railgun sender sent dictionary"),
    (0x20, "Dictionary found in memcache"),
    (0x40, "Restarted broken origin connection") ]

/-- The `for (var flagKey in railgunFlags)` loop: push the message of every
flag whose bit is set, in table order. -/
def expandFlags (bitset : Option Int) : List String :=
  (railgunFlags.filter fun f => jsBitTest bitset f.1).map Prod.snd

/-- `this.railgunMetaData` as built by `processRailgunHeader`; `none` fields
are keys the code leaves absent (or assigns `undefined` to). -/
structure RailgunMetaData where
  normal : Bool := false
  id : Option String := none
  version : Option String := none
  compression : Option String := none
  time : Option String := none
  flags : Option Int := none
  messages : List String := []
  deriving DecidableEq, Repr

/-- `Request.prototype.processRailgunHeader`, as a pure function of the raw
header value.  (The `typeof railgunHeader` guard is vacuous here
because the header values of the model are strings by type.) -/
def processRailgunHeader (railgunHeader : String) : RailgunMetaData :=
  let railgunNormal := containsSubstr railgunHeader "normal"
  let parts := jsSplit railgunHeader ' '
  if railgunNormal then
    let flagsBitset := parseIntAt (jsIndex parts 1)
    { normal := true
      id := jsIndex parts 0
      version := jsIndex parts 3
      flags := flagsBitset
      messages := expandFlags flagsBitset }
  else
    let flagsBitset := parseIntAt (jsIndex parts 3)
    { normal := false
      id := jsIndex parts 0
      compression := some (numToString (jsSub (some 100) (toNumberAt (jsIndex parts 1))) ++ "%")
      time := some (strOrUndef (jsIndex parts 2) ++ "sec")
      flags := flagsBitset
      version := jsIndex parts 4
      messages := expandFlags flagsBitset }

/-- The request-completion `details` the script reads: tab id, url, server
`ip` (may be absent, e.g. cache-only responses), `fromCache`, and the raw
ordered response-header list as `(name, value)` pairs. -/
structure RequestDetails where
  tabId : Nat
  url : String
  ip : Option String := none
  fromCache : Bool := false
  responseHeaders : List (String × String) := []
  deriving DecidableEq, Repr

/-- The `Request` object.  `SPDY` is the (possibly still `undefined`) stored
transport status; `hasSPDYStatus` is the UNKNOWN/KNOWN state bit. -/
structure Request where
  details : RequestDetails
  headers : List (String × String)
  hasSPDYStatus : Bool
  railgunMetaData : Option RailgunMetaData
  SPDY : Option Bool := none
  deriving DecidableEq, Repr

/-- Lookup in the headers map; duplicates were stored by successive assignment,
so the last pair with the key wins. -/
def headerLookup (hs : List (String × String)) (key : String) : Option String :=
  (hs.reverse.find? fun p => p.1 = key).map Prod.snd

/-- `preProcessHeaders`: upcase every header name (assignment order preserved;
`headerLookup` realises last-write-wins). -/
def preHeaders (raw : List (String × String)) : List (String × String) :=
  raw.map fun p => (upName p.1, p.2)

/-- The `Request` constructor followed by `preProcessHeaders` (which decodes
`CF-RAILGUN` when present). -/
def mkRequest (details : RequestDetails) : Request :=
  let hs := preHeaders details.responseHeaders
  { details := details
    headers := hs
    hasSPDYStatus := false
    railgunMetaData := (headerLookup hs "CF-RAILGUN").map processRailgunHeader
    SPDY := none }

/-- `servedByCloudFlare`: the SERVER header is present and equals exactly `cloudflare-nginx`. -/
def Request.servedByCloudFlare (r : Request) : Bool :=
  headerLookup r.headers "SERVER" = some "cloudflare-nginx"

/-- `servedByRailgun`: the CF-RAILGUN header is present. -/
def Request.servedByRailgun (r : Request) : Bool :=
  (headerLookup r.headers "CF-RAILGUN").isSome

/-- `servedOverSPDY`: returns `this.SPDY` (possibly `undefined`). -/
def Request.servedOverSPDY (r : Request) : Option Bool :=
  r.SPDY

/-- `getServerIP`: `this.details.ip` (may be `undefined`). -/
def Request.getServerIP (r : Request) : Option String :=
  r.details.ip

/-- `isv6IP`: the server ip contains a colon.  Reading `.indexOf` of
an `undefined` ip throws a `TypeError`, modelled as `none`. -/
def Request.isv6IP (r : Request) : Option Bool :=
  r.getServerIP.map fun s => hasChar s ':'

/-- Dash-join of the icon path parts (`iconPathParts.join` with a dash). -/
def joinDash : List String → String
  | [] => ""
  | [x] => x
  | x :: xs => x ++ "-" ++ joinDash xs

/-- `getPageActionPath`: build the token list in source order (on/off, spdy,
ipv6, rg) and join.  The unconditional `isv6IP()` call throws when the ip is
absent, so the whole computation is `none` in that case. -/
def Request.getPageActionPath (r : Request) : Option String :=
  match r.isv6IP with
  | none => none
  | some v6 =>
    let iconPathParts : List String :=
      (if r.servedByCloudFlare then ["on"] else ["off"])
        ++ (if truthy r.servedOverSPDY then ["spdy"] else [])
        ++ (if v6 then ["ipv6"] else [])
        ++ (if r.servedByRailgun then ["rg"] else [])
    some ("images/claire-3-" ++ joinDash iconPathParts ++ ".png")

/-- `setSPDYStatus(status)`: mark the status KNOWN and store it. -/
def Request.setSPDYStatus (r : Request) (status : Option Bool) : Request :=
  { r with hasSPDYStatus := true, SPDY := status }

/-- Observable actions a handler emits towards the host. -/
inductive Effect where
  /-- `pageAction.setIcon` (with the computed path) + `setPopup` + `show`. -/
  | publishIcon (tabId : Nat) (path : String)
  /-- `chrome.tabs.sendMessage(tabId, {action: ...}, callback)`. -/
  | queryPage (tabId : Nat) (action : String)
  /-- `sendResponse({})`. -/
  | respond
  /-- A `console.log` line. -/
  | log (msg : String)
  /-- An uncaught `TypeError` escaped the handler. -/
  | exn
  deriving DecidableEq, Repr

/-- `setPageActionIconAndPopup`: compute the path (this may throw, via
`isv6IP`) and publish icon, popup and show for the tab. -/
def Request.setPageActionIconAndPopup (r : Request) : List Effect :=
  match r.getPageActionPath with
  | none => [Effect.exn]
  | some path => [Effect.publishIcon r.details.tabId path]

/-- `querySPDYStatusAndSetIcon`: if the status is already KNOWN publish from
the cached value, otherwise send the `check_spdy_status` query to the page
(its callback is modelled separately as `spdyCallback`). -/
def Request.querySPDYStatusAndSetIcon (r : Request) : List Effect :=
  if r.hasSPDYStatus then r.setPageActionIconAndPopup
  else [Effect.queryPage r.details.tabId "check_spdy_status"]

/-- The global `requests` object: tab id to current `Request`. -/
def Registry : Type := Nat → Option Request

/-- Property assignment / `delete` on `requests`. -/
def Registry.update (reg : Registry) (t : Nat) (v : Option Request) : Registry :=
  fun x => if x = t then v else reg x

/-- `processCompletedRequest`: build a `Request` from the details and store it
under its tab id.  (`logToConsole` only writes to the console and is not
modelled.) -/
def processCompletedRequest (reg : Registry) (details : RequestDetails) : Registry :=
  reg.update details.tabId (some (mkRequest details))

/-- The `chrome.tabs.onReplaced` listener: if the removed tab is tracked, copy
its record to the added id and delete the removed id (in that order);
otherwise only log. -/
def onTabReplaced (reg : Registry) (addedTabId removedTabId : Nat) :
    Registry × List Effect :=
  match reg removedTabId with
  | some r =>
    ((reg.update addedTabId (some r)).update removedTabId none, [])
  | none =>
    (reg, [Effect.log ("could not find an entry in requests for " ++ toString removedTabId)])

/-- The `chrome.tabs.onRemoved` listener. -/
def onTabRemoved (reg : Registry) (tabId : Nat) : Registry :=
  reg.update tabId none

/-- The `chrome.webNavigation.onDOMContentLoaded` details: `frameId` is 0 for
the top frame and positive for sub-frames (the platform never delivers a
negative id here, so `Nat` is faithful). -/
structure NavDetails where
  tabId : Nat
  frameId : Nat
  deriving DecidableEq, Repr

/-- The `onDOMContentLoaded` listener: ignore sub-frames, and for a tracked
tab run the query flow on its record.  It never mutates the registry. -/
def onDOMContentLoaded (reg : Registry) (d : NavDetails) : List Effect :=
  if d.frameId > 0 then []
  else
    match reg d.tabId with
    | some r => r.querySPDYStatusAndSetIcon
    | none => []

/-- The `spdy` property of the content-script response object (possibly absent). -/
structure CSResponse where
  spdy : Option Bool := none
  deriving DecidableEq, Repr

/-- `cs_message_callback` inside `querySPDYStatusAndSetIcon`, invoked with the
tab id it captured: on an `undefined` response return immediately; otherwise
look the tab up again, set `request.SPDY = cs_msg_response.spdy` (note: it
does NOT set `hasSPDYStatus`) and publish the icon.  A deleted entry makes the
property write throw. -/
def spdyCallback (reg : Registry) (tabID : Nat) (resp : Option CSResponse) :
    Registry × List Effect :=
  match resp with
  | none => (reg, [])
  | some payload =>
    match reg tabID with
    | none => (reg, [Effect.exn])
    | some req =>
      let req' := { req with SPDY := payload.spdy }
      (reg.update tabID (some req'), req'.setPageActionIconAndPopup)

/-- An inbound `chrome.runtime.onMessage` payload from the page context. -/
structure Message where
  spdy : Option Bool := none
  deriving DecidableEq, Repr

/-- The `chrome.runtime.onMessage` listener.  In the source the parameter
`request` (the message) is immediately shadowed by
`var request = requests[sender.tab.id]`, so `request.spdy` reads the `spdy`
property of the `Request` record in the registry — a property no code ever assigns
(the stored status lives in `SPDY`, upper case) — hence always `undefined`.
The message payload `msg` is therefore never read.  `sendResponse({})` runs
unconditionally. -/
def onMessageHandler (reg : Registry) (senderTabId : Nat) (msg : Message) :
    Registry × List Effect :=
  match reg senderTabId with
  | some r =>
    let _ := msg
    (reg.update senderTabId (some (r.setSPDYStatus none)), [Effect.respond])
  | none => (reg, [Effect.respond])

/-! ## Concrete fixtures used by the theorems below -/

/-- Completion details of a request with every feature present: SERVER is the
edge provider, CF-RAILGUN is present, and the server ip is IPv6. -/
def allOnDetails : RequestDetails :=
  { tabId := 1, url := "https://example.com/", ip := some "2400:cb00::1",
    fromCache := false,
    responseHeaders := [("Server", "cloudflare-nginx"), ("CF-Railgun", "a 1 0.1 2 1.0")] }

/-- The all-features record, with transport status reported as active. -/
def allOnReq : Request := (mkRequest allOnDetails).setSPDYStatus (some true)

/-- Completion details with no detected feature (IPv4 ip, no special headers). -/
def allOffDetails : RequestDetails :=
  { tabId := 2, url := "http://example.org/", ip := some "93.184.216.34" }

/-- The no-features record. -/
def allOffReq : Request := mkRequest allOffDetails

/-- Completion details that carry no server ip field at all. -/
def noIpDetails : RequestDetails :=
  { tabId := 4, url := "http://cached.example/", ip := none, fromCache := true }

/-- A record built from details without a server ip. -/
def noIpReq : Request := mkRequest noIpDetails

/-- Details of a tracked navigation for the DOM-content-loaded fixtures. -/
def dclDetails : RequestDetails :=
  { tabId := 5, url := "https://d.example/", ip := some "9.9.9.9" }

/-- A registry tracking exactly tab 5. -/
def dclReg : Registry := Registry.update (fun _ => none) 5 (some (mkRequest dclDetails))

/-- Details of a completed request in tab 1 for the tab-replace fixtures. -/
def trDetails : RequestDetails :=
  { tabId := 1, url := "https://t.example/", ip := some "8.8.8.8" }

/-- The empty registry. -/
def trReg : Registry := fun _ => none

/-- Details of a request whose page context will report its transport status. -/
def c1Details : RequestDetails :=
  { tabId := 7, url := "https://spdy.example/", ip := some "1.2.3.4",
    responseHeaders := [("Server", "cloudflare-nginx")] }

/-- A registry tracking exactly tab 7. -/
def c1Reg : Registry := Registry.update (fun _ => none) 7 (some (mkRequest c1Details))

/-- Details for the status-receipt fixtures (tab 3, UNKNOWN status). -/
def c2Details : RequestDetails :=
  { tabId := 3, url := "https://a.example/", ip := some "1.2.3.4" }

/-- A registry tracking exactly tab 3. -/
def c2Reg : Registry := Registry.update (fun _ => none) 3 (some (mkRequest c2Details))

/-! ## Theorems for the claims -/

/-- Claim C3: the DOM-content-loaded handler ignores every event with a
non-zero `frameId` (platform frame ids are nonnegative, so `frameId > 0` in
the source coincides with `frameId ≠ 0`); for a top-frame event on a tracked
tab it runs the transport-protocol query flow of that record, and for an
untracked tab it does nothing.  The handler never mutates the registry (its
type returns effects only). -/
theorem domContentLoaded_dispatch :
    (∀ (reg : Registry) (d : NavDetails), d.frameId ≠ 0 → onDOMContentLoaded reg d = [])
    ∧ (∀ (reg : Registry) (d : NavDetails) (r : Request), d.frameId = 0 → reg d.tabId = some r →
        onDOMContentLoaded reg d = r.querySPDYStatusAndSetIcon)
    ∧ (∀ (reg : Registry) (d : NavDetails), d.frameId = 0 → reg d.tabId = none →
        onDOMContentLoaded reg d = []) := by
  refine ⟨?_, ?_, ?_⟩
  · intro reg d h
    simp [onDOMContentLoaded, Nat.pos_of_ne_zero h]
  · intro reg d r h0 hr
    simp [onDOMContentLoaded, h0, hr]
  · intro reg d h0 hn
    simp [onDOMContentLoaded, h0, hn]

/-- Witness for C3 at a registry tracking tab 5: a sub-frame event is ignored,
a top-frame event on tab 5 dispatches to the record, and a top-frame event on
untracked tab 6 does nothing. -/
theorem domContentLoaded_dispatch_witness :
    onDOMContentLoaded dclReg { tabId := 5, frameId := 3 } = []
    ∧ onDOMContentLoaded dclReg { tabId := 5, frameId := 0 } =
        (mkRequest dclDetails).querySPDYStatusAndSetIcon
    ∧ onDOMContentLoaded dclReg { tabId := 6, frameId := 0 } = [] :=
  ⟨domContentLoaded_dispatch.1 dclReg { tabId := 5, frameId := 3 } (by decide),
   domContentLoaded_dispatch.2.1 dclReg { tabId := 5, frameId := 0 } (mkRequest dclDetails) rfl rfl,
   domContentLoaded_dispatch.2.2 dclReg { tabId := 6, frameId := 0 } rfl rfl⟩

/-- Claim C8: after a completed request for tab 1 and then a tab-replace of 1
by 2, tab 1 is untracked, tab 2 holds the original record, and every other tab
entry is unchanged; when the removed tab id is untracked the handler only logs
a diagnostic and the registry is returned unchanged. -/
theorem tabReplace_moves_record :
    (∀ (reg : Registry) (d : RequestDetails), d.tabId = 1 →
      (onTabReplaced (processCompletedRequest reg d) 2 1).1 1 = none
      ∧ (onTabReplaced (processCompletedRequest reg d) 2 1).1 2 = some (mkRequest d)
      ∧ ∀ t : Nat, t ≠ 1 → t ≠ 2 →
          (onTabReplaced (processCompletedRequest reg d) 2 1).1 t = processCompletedRequest reg d t)
    ∧ (∀ (reg : Registry) (a rm : Nat), reg rm = none →
        onTabReplaced reg a rm =
          (reg, [Effect.log ("could not find an entry in requests for " ++ toString rm)])) := by
  constructor
  · intro reg d hd
    have h1 : processCompletedRequest reg d 1 = some (mkRequest d) := by
      simp [processCompletedRequest, Registry.update, hd]
    refine ⟨?_, ?_, ?_⟩
    · simp [onTabReplaced, h1, Registry.update]
    · simp [onTabReplaced, h1, Registry.update]
    · intro t ht1 ht2
      simp [onTabReplaced, h1, Registry.update, ht1, ht2]
  · intro reg a rm h
    simp [onTabReplaced, h]

/-- Witness for C8, starting from the empty registry: the record moves from
tab 1 to tab 2, tab 9 is untouched, and a replace of untracked tab 3 only
logs. -/
theorem tabReplace_moves_record_witness :
    ((onTabReplaced (processCompletedRequest trReg trDetails) 2 1).1 1 = none
      ∧ (onTabReplaced (processCompletedRequest trReg trDetails) 2 1).1 2 = some (mkRequest trDetails)
      ∧ (onTabReplaced (processCompletedRequest trReg trDetails) 2 1).1 9 =
          processCompletedRequest trReg trDetails 9)
    ∧ onTabReplaced trReg 4 3 =
        (trReg, [Effect.log ("could not find an entry in requests for " ++ toString 3)]) :=
  ⟨⟨(tabReplace_moves_record.1 trReg trDetails rfl).1,
    (tabReplace_moves_record.1 trReg trDetails rfl).2.1,
    (tabReplace_moves_record.1 trReg trDetails rfl).2.2 9 (by decide) (by decide)⟩,
   tabReplace_moves_record.2 trReg 4 3 rfl⟩

/-- Claim C1 (evaluation at the failing input): the page context of tab 7
reports transport status `true`, the registry has a current record for tab 7,
yet handling the message stores `undefined` (the message parameter is shadowed
by the registry lookup, and the `spdy` property read off the record is never
assigned), so `servedOverSPDY` afterwards is falsy instead of the reported
`true`; the empty acknowledgement is still sent. -/
theorem onMessage_drops_reported_status :
    (onMessageHandler c1Reg 7 { spdy := some true }).1 7 =
        some ((mkRequest c1Details).setSPDYStatus none)
    ∧ ((onMessageHandler c1Reg 7 { spdy := some true }).1 7).map
        (fun r => truthy r.servedOverSPDY) = some false
    ∧ (onMessageHandler c1Reg 7 { spdy := some true }).2 = [Effect.respond] := by
  refine ⟨by decide, by decide, by decide⟩

/-- Counterexample to claim C2 as stated: the record for tab 3 is in the
UNKNOWN state and the query callback delivers status `true`; the status is
stored, but the record is still not KNOWN (`hasSPDYStatus` stays `false`, so a
later query is not skipped); and the inbound-message path — the only path that
does set `hasSPDYStatus` — emits no icon publication at all. -/
theorem spdyCallback_no_known_transition :
    ((spdyCallback c2Reg 3 (some { spdy := some true })).1 3).map Request.hasSPDYStatus = some false
    ∧ ((spdyCallback c2Reg 3 (some { spdy := some true })).1 3).map Request.SPDY =
        some (some true)
    ∧ (onMessageHandler c2Reg 3 { spdy := some true }).2 = [Effect.respond] := by
  refine ⟨by decide, by decide, by decide⟩

/-- Helper: on a record whose server ip is present, publishing the page action
emits exactly one icon publication, whose path is the recomputed variant. -/
theorem publish_of_ip (r : Request) (ipStr : String) (h : r.details.ip = some ipStr) :
    r.setPageActionIconAndPopup =
      [Effect.publishIcon r.details.tabId (strOrUndef r.getPageActionPath)] := by
  simp [Request.setPageActionIconAndPopup, Request.getPageActionPath, Request.isv6IP,
    Request.getServerIP, h, strOrUndef]

/-- Claim C2 as amended: receiving a status value through the query callback
stores the value and triggers the icon recompute-and-publish exactly once, but
leaves `hasSPDYStatus` unchanged (no UNKNOWN-to-KNOWN transition);
`setSPDYStatus` — reached only through the inbound-message handler — performs
the transition to KNOWN and stores the value, but that handler publishes no
icon; and once KNOWN, the query flow skips the page query and publishes from
the cached value. -/
theorem spdy_status_receipt_behaviour :
    (∀ (reg : Registry) (tabID : Nat) (req : Request) (payload : CSResponse) (ipStr : String),
      reg tabID = some req → req.details.ip = some ipStr →
      (spdyCallback reg tabID (some payload)).1 tabID = some { req with SPDY := payload.spdy }
      ∧ ({ req with SPDY := payload.spdy } : Request).hasSPDYStatus = req.hasSPDYStatus
      ∧ (spdyCallback reg tabID (some payload)).2 =
          [Effect.publishIcon req.details.tabId
            (strOrUndef ({ req with SPDY := payload.spdy } : Request).getPageActionPath)])
    ∧ (∀ (r : Request) (status : Option Bool),
        (r.setSPDYStatus status).hasSPDYStatus = true ∧ (r.setSPDYStatus status).SPDY = status)
    ∧ (∀ (reg : Registry) (sid : Nat) (m : Message),
        (onMessageHandler reg sid m).2 = [Effect.respond])
    ∧ (∀ r : Request, r.hasSPDYStatus = true →
        r.querySPDYStatusAndSetIcon = r.setPageActionIconAndPopup) := by
  refine ⟨?_, ?_, ?_, ?_⟩
  · intro reg tabID req payload ipStr hreg hip
    refine ⟨?_, rfl, ?_⟩
    · simp [spdyCallback, hreg, Registry.update]
    · have := publish_of_ip { req with SPDY := payload.spdy } ipStr hip
      simp [spdyCallback, hreg, this]
  · intro r status
    exact ⟨rfl, rfl⟩
  · intro reg sid m
    cases h : reg sid <;> simp [onMessageHandler, h]
  · intro r h
    simp [Request.querySPDYStatusAndSetIcon, h]

/-- Witness for the amended C2 at the tab-3 fixture. -/
theorem spdy_status_receipt_behaviour_witness :
    ((spdyCallback c2Reg 3 (some { spdy := some true })).1 3 =
        some { mkRequest c2Details with SPDY := some true }
      ∧ ({ mkRequest c2Details with SPDY := some true } : Request).hasSPDYStatus =
          (mkRequest c2Details).hasSPDYStatus
      ∧ (spdyCallback c2Reg 3 (some { spdy := some true })).2 =
          [Effect.publishIcon (mkRequest c2Details).details.tabId
            (strOrUndef ({ mkRequest c2Details with SPDY := some true } : Request).getPageActionPath)])
    ∧ ((allOnReq.setSPDYStatus (some false)).hasSPDYStatus = true
        ∧ (allOnReq.setSPDYStatus (some false)).SPDY = some false)
    ∧ (onMessageHandler c2Reg 3 { spdy := some false }).2 = [Effect.respond]
    ∧ allOnReq.querySPDYStatusAndSetIcon = allOnReq.setPageActionIconAndPopup :=
  ⟨spdy_status_receipt_behaviour.1 c2Reg 3 (mkRequest c2Details) { spdy := some true } "1.2.3.4"
      rfl rfl,
   spdy_status_receipt_behaviour.2.1 allOnReq (some false),
   spdy_status_receipt_behaviour.2.2.1 c2Reg 3 { spdy := some false },
   spdy_status_receipt_behaviour.2.2.2 allOnReq (by decide)⟩

/-- Claim C7: for every record whose server ip is a string, the page-action
path is the fixed root plus the dash-join of the ordered tokens — on/off for
the edge provider, then spdy, then ipv6, then rg, each present iff its
condition holds — plus the extension; the all-true record yields exactly the
`on-spdy-ipv6-rg` variant and the all-false record exactly the `off`
variant. -/
theorem pageActionPath_tokens :
    (∀ (r : Request) (s : String), r.details.ip = some s →
      r.getPageActionPath = some ("images/claire-3-" ++ joinDash (
        (if r.servedByCloudFlare then ["on"] else ["off"])
          ++ (if truthy r.servedOverSPDY then ["spdy"] else [])
          ++ (if hasChar s ':' then ["ipv6"] else [])
          ++ (if r.servedByRailgun then ["rg"] else [])) ++ ".png"))
    ∧ allOnReq.getPageActionPath = some "images/claire-3-on-spdy-ipv6-rg.png"
    ∧ allOffReq.getPageActionPath = some "images/claire-3-off.png" := by
  refine ⟨?_, by decide, by decide⟩
  intro r s h
  simp [Request.getPageActionPath, Request.isv6IP, Request.getServerIP, h]

/-- Witness for C7 at the all-false record. -/
theorem pageActionPath_tokens_witness :
    allOffReq.getPageActionPath = some ("images/claire-3-" ++ joinDash (
      (if allOffReq.servedByCloudFlare then ["on"] else ["off"])
        ++ (if truthy allOffReq.servedOverSPDY then ["spdy"] else [])
        ++ (if hasChar "93.184.216.34" ':' then ["ipv6"] else [])
        ++ (if allOffReq.servedByRailgun then ["rg"] else [])) ++ ".png") :=
  pageActionPath_tokens.1 allOffReq "93.184.216.34" rfl

/-- Claim C10: `isv6IP` reads the server ip unconditionally, so on a record
whose completion details carry no ip the error branch is taken (and the
page-action path computation errors with it) — the fixture `noIpReq` shows the
branch is reachable from `mkRequest`; under the precondition that the ip is a
string, `isv6IP` never errors and returns exactly whether the string contains
a colon. -/
theorem isv6IP_partiality :
    (∀ r : Request, r.getServerIP = none → r.isv6IP = none ∧ r.getPageActionPath = none)
    ∧ (∀ (r : Request) (s : String), r.getServerIP = some s → r.isv6IP = some (hasChar s ':'))
    ∧ noIpReq.isv6IP = none ∧ noIpReq.getPageActionPath = none := by
  refine ⟨?_, ?_, by decide, by decide⟩
  · intro r h
    constructor
    · simp [Request.isv6IP, h]
    · simp [Request.getPageActionPath, Request.isv6IP, h]
  · intro r s h
    simp [Request.isv6IP, h]

/-- Witness for C10: the ip-less record errors, and the all-features record
evaluates the colon test. -/
theorem isv6IP_partiality_witness :
    (noIpReq.isv6IP = none ∧ noIpReq.getPageActionPath = none)
    ∧ allOnReq.isv6IP = some (hasChar "2400:cb00::1" ':') :=
  ⟨isv6IP_partiality.1 noIpReq rfl,
   isv6IP_partiality.2.1 allOnReq "2400:cb00::1" rfl⟩

/-- Claim C4: for every raw header string containing the substring `normal`,
decoding sets `normal := true`, `id` to token 0, the flags bitset to the
base-10 integer parse of token 1, `version` to token 3, and leaves
`compression` and `time` absent. -/
theorem railgun_normal_decoding (s : String) (h : containsSubstr s "normal" = true) :
    (processRailgunHeader s).normal = true
    ∧ (processRailgunHeader s).id = jsIndex (jsSplit s ' ') 0
    ∧ (processRailgunHeader s).flags = parseIntAt (jsIndex (jsSplit s ' ') 1)
    ∧ (processRailgunHeader s).version = jsIndex (jsSplit s ' ') 3
    ∧ (processRailgunHeader s).compression = none
    ∧ (processRailgunHeader s).time = none := by
  simp [processRailgunHeader, h]

/-- Witness for C4 at a concrete normal-format header. -/
theorem railgun_normal_decoding_witness :
    (processRailgunHeader "normal 5 x 3.1").normal = true
    ∧ (processRailgunHeader "normal 5 x 3.1").id = jsIndex (jsSplit "normal 5 x 3.1" ' ') 0
    ∧ (processRailgunHeader "normal 5 x 3.1").flags =
        parseIntAt (jsIndex (jsSplit "normal 5 x 3.1" ' ') 1)
    ∧ (processRailgunHeader "normal 5 x 3.1").version = jsIndex (jsSplit "normal 5 x 3.1" ' ') 3
    ∧ (processRailgunHeader "normal 5 x 3.1").compression = none
    ∧ (processRailgunHeader "normal 5 x 3.1").time = none :=
  railgun_normal_decoding "normal 5 x 3.1" (by decide)

/-- Claim C5: for every raw header string not containing `normal` whose token 1
coerces to the integer k (the source subtracts the token from 100 with JS
numeric coercion) and whose token 2 is present, decoding sets `id` to token 0,
`compression` to (100 - k) followed by a percent sign, `time` to token 2
followed by `sec`, the flags bitset to the base-10 integer parse of token 3,
and `version` to token 4. -/
theorem railgun_formatB_decoding (s t1 t2 : String) (k : Int)
    (h : containsSubstr s "normal" = false)
    (h1 : jsIndex (jsSplit s ' ') 1 = some t1) (hk : toNumber t1 = some k)
    (h2 : jsIndex (jsSplit s ' ') 2 = some t2) :
    (processRailgunHeader s).normal = false
    ∧ (processRailgunHeader s).id = jsIndex (jsSplit s ' ') 0
    ∧ (processRailgunHeader s).compression = some (toString (100 - k) ++ "%")
    ∧ (processRailgunHeader s).time = some (t2 ++ "sec")
    ∧ (processRailgunHeader s).flags = parseIntAt (jsIndex (jsSplit s ' ') 3)
    ∧ (processRailgunHeader s).version = jsIndex (jsSplit s ' ') 4 := by
  simp [processRailgunHeader, h, h1, h2, hk, toNumberAt, jsSub, numToString, strOrUndef]

/-- Witness for C5 at a concrete format-B header (compression 75 percent). -/
theorem railgun_formatB_decoding_witness :
    (processRailgunHeader "ray77 25 0.5 5 5.2.0").normal = false
    ∧ (processRailgunHeader "ray77 25 0.5 5 5.2.0").id =
        jsIndex (jsSplit "ray77 25 0.5 5 5.2.0" ' ') 0
    ∧ (processRailgunHeader "ray77 25 0.5 5 5.2.0").compression =
        some (toString (100 - (25 : Int)) ++ "%")
    ∧ (processRailgunHeader "ray77 25 0.5 5 5.2.0").time = some ("0.5" ++ "sec")
    ∧ (processRailgunHeader "ray77 25 0.5 5 5.2.0").flags =
        parseIntAt (jsIndex (jsSplit "ray77 25 0.5 5 5.2.0" ' ') 3)
    ∧ (processRailgunHeader "ray77 25 0.5 5 5.2.0").version =
        jsIndex (jsSplit "ray77 25 0.5 5 5.2.0" ' ') 4 :=
  railgun_formatB_decoding "ray77 25 0.5 5 5.2.0" "25" "0.5" 25
    (by decide) (by decide) (by decide) (by decide)

/-- Helper: a `NaN` bitset activates no flag message. -/
theorem expandFlags_nan : expandFlags none = [] := by decide

/-- Claim C9: in either format, when the flags token does not parse as a
base-10 integer the decoder still returns (it cannot raise — it is total by
type), the other fields of the format are populated as usual, and the active
flag message list is empty. -/
theorem malformed_flags_token (s : String) :
    (containsSubstr s "normal" = true → parseIntAt (jsIndex (jsSplit s ' ') 1) = none →
      (processRailgunHeader s).messages = []
      ∧ (processRailgunHeader s).flags = none
      ∧ (processRailgunHeader s).id = jsIndex (jsSplit s ' ') 0
      ∧ (processRailgunHeader s).version = jsIndex (jsSplit s ' ') 3)
    ∧ (containsSubstr s "normal" = false → parseIntAt (jsIndex (jsSplit s ' ') 3) = none →
      (processRailgunHeader s).messages = []
      ∧ (processRailgunHeader s).flags = none
      ∧ (processRailgunHeader s).id = jsIndex (jsSplit s ' ') 0
      ∧ (processRailgunHeader s).version = jsIndex (jsSplit s ' ') 4
      ∧ (processRailgunHeader s).time =
          some (strOrUndef (jsIndex (jsSplit s ' ') 2) ++ "sec")) := by
  constructor
  · intro h hp
    simp [processRailgunHeader, h, hp, expandFlags_nan]
  · intro h hp
    simp [processRailgunHeader, h, hp, expandFlags_nan]

/-- Witness for C9 at one malformed header of each format. -/
theorem malformed_flags_token_witness :
    ((processRailgunHeader "normal abc x 1.0").messages = []
      ∧ (processRailgunHeader "normal abc x 1.0").flags = none
      ∧ (processRailgunHeader "normal abc x 1.0").id =
          jsIndex (jsSplit "normal abc x 1.0" ' ') 0
      ∧ (processRailgunHeader "normal abc x 1.0").version =
          jsIndex (jsSplit "normal abc x 1.0" ' ') 3)
    ∧ ((processRailgunHeader "ray 20 0.5 zz 5.0").messages = []
      ∧ (processRailgunHeader "ray 20 0.5 zz 5.0").flags = none
      ∧ (processRailgunHeader "ray 20 0.5 zz 5.0").id =
          jsIndex (jsSplit "ray 20 0.5 zz 5.0" ' ') 0
      ∧ (processRailgunHeader "ray 20 0.5 zz 5.0").version =
          jsIndex (jsSplit "ray 20 0.5 zz 5.0" ' ') 4
      ∧ (processRailgunHeader "ray 20 0.5 zz 5.0").time =
          some (strOrUndef (jsIndex (jsSplit "ray 20 0.5 zz 5.0" ' ') 2) ++ "sec")) :=
  ⟨(malformed_flags_token "normal abc x 1.0").1 (by decide) (by decide),
   (malformed_flags_token "ray 20 0.5 zz 5.0").2 (by decide) (by decide)⟩

/-- Claim C6: for every bitset a message is active iff its flag bit passes the
bitwise test (through `ToInt32`, as in the source); the active list is always
a sublist of the 7-message table in its ascending-bit order; bitset 5 yields
exactly the two expected messages in order, bitset 0 yields the empty list,
and bitset 127 yields all 7 messages in table order. -/
theorem flag_expansion_characterisation :
    (∀ (b : Option Int) (m : String),
      m ∈ expandFlags b ↔ ∃ p : Nat, (p, m) ∈ railgunFlags ∧ jsBitTest b p = true)
    ∧ (∀ b : Option Int, List.Sublist (expandFlags b) (railgunFlags.map Prod.snd))
    ∧ expandFlags (some 5) = ["map.file used to change IP", "Host name change"]
    ∧ expandFlags (some 0) = []
    ∧ expandFlags (some 127) = railgunFlags.map Prod.snd := by
  refine ⟨?_, ?_, by decide, by decide, by decide⟩
  · intro b m
    simp only [expandFlags, List.mem_map, List.mem_filter]
    constructor
    · rintro ⟨⟨p, m'⟩, ⟨hmem, ht⟩, rfl⟩
      exact ⟨p, hmem, ht⟩
    · rintro ⟨p, hmem, ht⟩
      exact ⟨(p, m), ⟨hmem, ht⟩, rfl⟩
  · intro b
    exact List.Sublist.map Prod.snd (List.filter_sublist railgunFlags)

end Claire
